import Mathlib

/-!
Verification of the connection-status core of the `wormhole` repository.

The repository's `tcp/status.py` defines `ConnectionStatus`, an `IntEnum`
with six members, and three classmethod predicates over raw integer codes.
Python integers are embedded as `Int`; the Python bitwise `&` on these
values is `Int.land`.  The timestamp tracker and the `classify` function
are described by the specification but their code is not part of the
sources here, so they are modelled from the specification text.
-/

namespace ConnectionStatus

/-- `Default = 0x00` from `tcp/status.py`. -/
def Default : Int := 0x00

/-- `Connecting = 0x01` from `tcp/status.py`. -/
def Connecting : Int := 0x01

/-- `Connected = 0x11` from `tcp/status.py`. -/
def Connected : Int := 0x11

/-- `Maintaining = 0x21` from `tcp/status.py`. -/
def Maintaining : Int := 0x21

/-- `Expired = 0x22` from `tcp/status.py`. -/
def Expired : Int := 0x22

/-- `Error = 0x03` from `tcp/status.py`. -/
def Error : Int := 0x03

/-- The six legal `ConnectionStatus` codes, in declaration order. -/
def legalCodes : List Int := [Default, Connecting, Connected, Maintaining, Expired, Error]

/-- `ConnectionStatus.is_connected`: `return (status & 0x30) != 0`. -/
def is_connected (status : Int) : Bool := Int.land status 0x30 != 0

/-- `ConnectionStatus.is_expired`: `return (status & 0x01) == 0`. -/
def is_expired (status : Int) : Bool := Int.land status 0x01 == 0

/-- `ConnectionStatus.is_error`: `return status == cls.Error.value`. -/
def is_error (status : Int) : Bool := status == Error

end ConnectionStatus

namespace Classifier

/-- The three-way recency state of one direction (send or receive). -/
inductive FieldState
  | NONE
  | STALE
  | RECENT
  deriving DecidableEq

/-- Modelled from the spec: the classifier's per-direction field computation
(`classify` is not among the sources).  The field is NONE if the timestamp is
unset or `now - last >= stale_threshold`, RECENT if `now - last <
recent_threshold`, and STALE otherwise. -/
def fieldState (now : Int) (last : Option Int) (recent_threshold stale_threshold : Int) :
    FieldState :=
  match last with
  | none => .NONE
  | some t =>
      if now - t < recent_threshold then .RECENT
      else if now - t < stale_threshold then .STALE
      else .NONE

/-- Modelled from the spec: `classify` (not among the sources) computes the
send and receive field states and looks the pair up in the fixed 3 x 3 table
of section 4.2 of the specification. -/
def classify (now : Int) (last_sent last_received : Option Int)
    (recent_threshold stale_threshold : Int) : Int :=
  match fieldState now last_sent recent_threshold stale_threshold,
        fieldState now last_received recent_threshold stale_threshold with
  | .NONE, .NONE => ConnectionStatus.Default
  | .NONE, .STALE => ConnectionStatus.Expired
  | .NONE, .RECENT => ConnectionStatus.Connected
  | .STALE, .NONE => ConnectionStatus.Error
  | .STALE, .STALE => ConnectionStatus.Expired
  | .STALE, .RECENT => ConnectionStatus.Connected
  | .RECENT, .NONE => ConnectionStatus.Connecting
  | .RECENT, .STALE => ConnectionStatus.Maintaining
  | .RECENT, .RECENT => ConnectionStatus.Connected

end Classifier

namespace Tracker

/-- Modelled from the spec: the Timestamp Tracker's observable state, the
last-sent and last-received instants, both starting unset ("never"). -/
structure TimestampTracker where
  last_sent : Option Int
  last_received : Option Int
  deriving DecidableEq

/-- Modelled from the spec: `on_sent(at)` records `at` as the last-sent
instant if `at` is not earlier than the currently recorded value; otherwise
the call is a no-op.  Out-of-order calls are silently ignored and never
raise, which the totality of this function reflects. -/
def on_sent (tr : TimestampTracker) (t : Int) : TimestampTracker :=
  match tr.last_sent with
  | none => { tr with last_sent := some t }
  | some prev => if t < prev then tr else { tr with last_sent := some t }

/-- Modelled from the spec: `on_received(at)`, symmetric to `on_sent`. -/
def on_received (tr : TimestampTracker) (t : Int) : TimestampTracker :=
  match tr.last_received with
  | none => { tr with last_received := some t }
  | some prev => if t < prev then tr else { tr with last_received := some t }

end Tracker

open ConnectionStatus Classifier Tracker

/-- C1 counterexample: the claim says `is_expired` is true for the Error
code `0x03`, but `0x03 & 0x01 = 1`, so `is_expired Error` is false. -/
theorem c1_is_expired_error_false : ¬ (is_expired Error = true) := by decide

/-- C1 (amended): on the six legal codes, `is_expired` is true exactly for
Default (`0x00`) and Expired (`0x22`), and false for Connecting (`0x01`),
Connected (`0x11`), Maintaining (`0x21`), and Error (`0x03`). -/
theorem c1_is_expired_on_legal_codes :
    is_expired Default = true ∧ is_expired Expired = true ∧
    is_expired Connecting = false ∧ is_expired Connected = false ∧
    is_expired Maintaining = false ∧ is_expired Error = false := by decide

/-- C2 counterexample: the Error code `0x03` has both send bits `0x01` and
`0x02` set, so the send-recent and send-stale bits are not mutually
exclusive across all six legal codes. -/
theorem c2_error_has_both_send_bits :
    Int.land Error 0x01 ≠ 0 ∧ Int.land Error 0x02 ≠ 0 := by decide

/-- C2 (amended): on every legal code the two receive bits `0x10` and `0x20`
are never both set, and on every legal code other than Error the two send
bits `0x01` and `0x02` are never both set. -/
theorem c2_bit_exclusivity (c : Int) (hc : c ∈ legalCodes) :
    ¬ (Int.land c 0x10 ≠ 0 ∧ Int.land c 0x20 ≠ 0) ∧
      (c ≠ Error → ¬ (Int.land c 0x01 ≠ 0 ∧ Int.land c 0x02 ≠ 0)) := by
  fin_cases hc <;> exact ⟨by decide, fun h => by first | decide | exact absurd rfl h⟩

/-- C2 witness: the amended exclusivity at the concrete code Connected. -/
theorem c2_bit_exclusivity_witness :
    ¬ (Int.land Connected 0x10 ≠ 0 ∧ Int.land Connected 0x20 ≠ 0) ∧
      (Connected ≠ Error →
        ¬ (Int.land Connected 0x01 ≠ 0 ∧ Int.land Connected 0x02 ≠ 0)) :=
  c2_bit_exclusivity Connected (by decide)

/-- C3: on the six legal codes, `is_connected` is true exactly for Connected,
Maintaining, and Expired, false for Default, Connecting, and Error, and on
every integer it equals the test `(code & 0x30) != 0`. -/
theorem c3_is_connected_on_legal_codes :
    (is_connected Connected = true ∧ is_connected Maintaining = true ∧
      is_connected Expired = true ∧ is_connected Default = false ∧
      is_connected Connecting = false ∧ is_connected Error = false) ∧
    ∀ x : Int, is_connected x = (Int.land x 0x30 != 0) :=
  ⟨by decide, fun x => rfl⟩

/-- C4: on every integer, `is_error` is true if and only if the code equals
the Error code `0x03`; in particular it is false on the other five legal
codes. -/
theorem c4_is_error_iff :
    (∀ x : Int, is_error x = true ↔ x = Error) ∧
    is_error Default = false ∧ is_error Connecting = false ∧
    is_error Connected = false ∧ is_error Maintaining = false ∧
    is_error Expired = false := by
  refine ⟨fun x => ?_, by decide⟩
  simp [is_error]

/-- C5: `ConnectionStatus` defines exactly six legal codes with the stated
values, and the six codes are pairwise distinct. -/
theorem c5_six_distinct_codes :
    legalCodes = [0x00, 0x01, 0x11, 0x21, 0x22, 0x03] ∧ legalCodes.Nodup := by
  decide

/-- C6: for every input combination with `recent_threshold <
stale_threshold`, `classify` returns one of the six legal codes (it is a
total function, so it never fails or returns anything else). -/
theorem c6_classify_legal (now : Int) (last_sent last_received : Option Int)
    (rt st : Int) (h : rt < st) :
    classify now last_sent last_received rt st ∈ legalCodes := by
  unfold classify
  cases fieldState now last_sent rt st <;> cases fieldState now last_received rt st <;> decide

/-- C6 witness: `classify` at a concrete input lands in the legal set. -/
theorem c6_classify_legal_witness :
    (1 : Int) < 2 ∧ classify 0 (some 0) none 1 2 ∈ legalCodes :=
  ⟨by decide, c6_classify_legal 0 (some 0) none 1 2 (by decide)⟩

/-- C7: whenever both timestamps are unset, `classify` returns Default, for
every `now` and every pair of thresholds. -/
theorem c7_classify_unset_default (now rt st : Int) :
    classify now none none rt st = ConnectionStatus.Default := rfl

/-- C8: for instants `a ≤ b`, calling `on_sent` (resp. `on_received`) with
`a` then `b`, with `b` then `a`, or with `b` twice, leaves the tracker in
the same state as a single call with `b`; an earlier instant is silently
ignored (the operations are total, so no error is ever raised). -/
theorem c8_tracker_idempotent (tr : TimestampTracker) (a b : Int) (h : a ≤ b) :
    on_sent (on_sent tr a) b = on_sent tr b ∧
    on_sent (on_sent tr b) a = on_sent tr b ∧
    on_sent (on_sent tr b) b = on_sent tr b ∧
    on_received (on_received tr a) b = on_received tr b ∧
    on_received (on_received tr b) a = on_received tr b ∧
    on_received (on_received tr b) b = on_received tr b := by
  obtain ⟨ls, lr⟩ := tr
  refine ⟨?_, ?_, ?_, ?_, ?_, ?_⟩ <;>
    cases ls <;> cases lr <;>
      simp only [on_sent, on_received] <;>
      split_ifs <;> simp_all <;> omega

/-- C8 witness: the idempotence equations at the fresh tracker with the
instants 1 and 2. -/
theorem c8_tracker_idempotent_witness :
    on_sent (on_sent ⟨none, none⟩ 1) 2 = on_sent ⟨none, none⟩ 2 ∧
    on_sent (on_sent ⟨none, none⟩ 2) 1 = on_sent ⟨none, none⟩ 2 ∧
    on_sent (on_sent ⟨none, none⟩ 2) 2 = on_sent ⟨none, none⟩ 2 ∧
    on_received (on_received ⟨none, none⟩ 1) 2 = on_received ⟨none, none⟩ 2 ∧
    on_received (on_received ⟨none, none⟩ 2) 1 = on_received ⟨none, none⟩ 2 ∧
    on_received (on_received ⟨none, none⟩ 2) 2 = on_received ⟨none, none⟩ 2 :=
  c8_tracker_idempotent ⟨none, none⟩ 1 2 (by decide)

/-- C9: Expired (`0x22`) is the unique legal code at which `is_connected`
and `is_expired` are both true. -/
theorem c9_expired_unique (c : Int) (hc : c ∈ legalCodes) :
    (is_connected c = true ∧ is_expired c = true) ↔ c = Expired := by
  fin_cases hc <;> decide

/-- C9 witness: the equivalence instantiated at the Expired code itself. -/
theorem c9_expired_unique_witness :
    (is_connected Expired = true ∧ is_expired Expired = true) ↔ Expired = Expired :=
  c9_expired_unique Expired (by decide)

/-- C10: the three predicates are total Lean functions on `Int` (no
validation, no failure on illegal codes), `is_connected` depends only on
the bits `0x30` of its input, and `is_expired` depends only on the bit
`0x01`. -/
theorem c10_predicates_total_and_bitlocal :
    ∀ x y : Int,
      (Int.land x 0x30 = Int.land y 0x30 → is_connected x = is_connected y) ∧
      (Int.land x 0x01 = Int.land y 0x01 → is_expired x = is_expired y) := by
  intro x y
  constructor
  · intro h
    unfold is_connected
    rw [h]
  · intro h
    unfold is_expired
    rw [h]

/-- C10 witness: bit-locality applied at the concrete pairs `0x11, 0x51`
(equal on the `0x30` bits) and `0x00, 0x22` (equal on the `0x01` bit). -/
theorem c10_predicates_witness :
    is_connected 0x11 = is_connected 0x51 ∧ is_expired 0x00 = is_expired 0x22 :=
  ⟨(c10_predicates_total_and_bitlocal 0x11 0x51).1 (by decide),
   (c10_predicates_total_and_bitlocal 0x00 0x22).2 (by decide)⟩
